import Mathlib

/-!
Verification development for the two scripts of this repository:
`src/codex/other_rag_frameworks/tutorial_functions.py` (a streaming RAG chat
loop with dynamic tool dispatch) and `src/test_notebooks.py` (a notebook
execution harness).  The Python code is shallowly embedded: pure helpers
become Lean functions, the streamed chat completion is a list of chunks
produced by an opaque client, mutation of the local loop variables becomes
explicit state passing, and Python exceptions become an `Except` error type.
External services (the OpenAI client, the `json` standard library parser,
`datetime.strftime`, the filesystem, papermill, the Slack webhook) are
modelled as explicit parameters or event traces; everything the scripts
themselves compute is translated directly from the source.
-/

/-- Python exceptions that the embedded code can raise and does not catch. -/
inductive PyErr where
  | jsonDecodeError
  | unboundLocalError
  | attributeError
  | recursionError
deriving DecidableEq

/-- Model of the Python substring test `needle in hay` (with the hay first,
matching the reading `hay contains needle`). -/
def pyContains (hay needle : String) : Bool :=
  hay.toList.tails.any (fun t => needle.toList.isPrefixOf t)

/-- Model of the Python test `s.endswith(suffix)`. -/
def pyEndsWith (s suffix : String) : Bool :=
  suffix.toList.reverse.isPrefixOf s.toList.reverse

/-- Fuel-driven worker for `pyReplace`: replaces non-overlapping occurrences
of `old` left to right, as Python `str.replace` does.  The fuel is the length
of the remaining text, which bounds the number of steps. -/
def pyReplaceAux (old new : List Char) : Nat → List Char → List Char
  | 0, l => l
  | _ + 1, [] => []
  | fuel + 1, c :: rest =>
    if old.isPrefixOf (c :: rest) && !old.isEmpty then
      new ++ pyReplaceAux old new fuel (rest.drop (old.length - 1))
    else
      c :: pyReplaceAux old new fuel rest

/-- Model of Python `s.replace(old, new)`: every non-overlapping occurrence of
`old` in `s` is replaced by `new`, scanning left to right.  The degenerate
empty-pattern case is not exercised by the scripts and is left as the
identity. -/
def pyReplace (s old new : String) : String :=
  String.mk (pyReplaceAux old.toList new.toList s.toList.length s.toList)

/-- JSON values, as produced by the Python `json` standard library. -/
inductive Json where
  | str (s : String)
  | num (n : Int)
  | bool (b : Bool)
  | null
  | arr (elems : List Json)
  | obj (fields : List (String × Json))

/-- Escaping of a single character inside a JSON string literal, as done by
`json.dumps`.  The characters exercised by this repository (quote, backslash
and the common whitespace escapes) are covered; other characters pass
through unchanged. -/
def escapeChar (c : Char) : List Char :=
  if c = '"' then ['\\', '"']
  else if c = '\\' then ['\\', '\\']
  else if c = '\n' then ['\\', 'n']
  else if c = '\t' then ['\\', 't']
  else if c = '\r' then ['\\', 'r']
  else [c]

/-- Escaping of a whole string inside a JSON string literal. -/
def escapeString (s : String) : String :=
  String.mk (s.toList.flatMap escapeChar)

mutual

/-- Model of `json.dumps` with its default separators. -/
def dumps : Json → String
  | .str s => "\"" ++ escapeString s ++ "\""
  | .num n => toString n
  | .bool b => if b then "true" else "false"
  | .null => "null"
  | .arr elems => "[" ++ dumpsElems elems ++ "]"
  | .obj fields => "\x7b" ++ dumpsFields fields ++ "\x7d"

/-- Comma-separated serialization of the elements of a JSON array. -/
def dumpsElems : List Json → String
  | [] => ""
  | [x] => dumps x
  | x :: y :: rest => dumps x ++ ", " ++ dumpsElems (y :: rest)

/-- Comma-separated serialization of the fields of a JSON object. -/
def dumpsFields : List (String × Json) → String
  | [] => ""
  | [(k, v)] => "\"" ++ escapeString k ++ "\": " ++ dumps v
  | (k, v) :: f :: rest =>
    "\"" ++ escapeString k ++ "\": " ++ dumps v ++ ", " ++ dumpsFields (f :: rest)

end

/-- Lookup of a key in a JSON object, returning `none` on other shapes. -/
def jsonGet (j : Json) (key : String) : Option Json :=
  match j with
  | .obj fields => fields.lookup key
  | _ => none

/-- A calendar date, standing in for the value of `datetime.now()`. -/
structure Date where
  year : Nat
  month : Nat
  day : Nat
deriving DecidableEq

/-- Left padding with zeros to a given width, as `strftime` applies to its
numeric directives. -/
def zfill (width : Nat) (digits : List Char) : List Char :=
  List.replicate (width - digits.length) '0' ++ digits

/-- Expansion of a single `strftime` directive.  The directives offered by the
tool schema of the tutorial (`%Y`, `%m`, `%d`) are modelled; any other
directive is left as written, which no claim depends on. -/
def strftimeDir (d : Date) (c : Char) : List Char :=
  if c = 'Y' then zfill 4 (Nat.toDigits 10 d.year)
  else if c = 'm' then zfill 2 (Nat.toDigits 10 d.month)
  else if c = 'd' then zfill 2 (Nat.toDigits 10 d.day)
  else if c = '%' then ['%']
  else ['%', c]

/-- Scanner of a `strftime` format string: a `%` consumes the next character
as a directive, every other character is copied verbatim. -/
def strftimeAux (d : Date) : List Char → List Char
  | [] => []
  | '%' :: c :: rest => strftimeDir d c ++ strftimeAux d rest
  | c :: rest => c :: strftimeAux d rest

/-- Model of `datetime.strftime` for a date `d`. -/
def strftime (d : Date) (fmt : String) : String :=
  String.mk (strftimeAux d fmt.toList)

namespace TutorialFunctions

/-- Translation of `get_todays_date` from
`src/codex/other_rag_frameworks/tutorial_functions.py`.  The ambient current
date `datetime.now()` is passed explicitly as `today`. -/
def get_todays_date (today : Date) (date_format : String) : String :=
  strftime today date_format

/-- Translation of the `todays_date_tool_json` schema constant. -/
def todays_date_tool_json : Json :=
  .obj [
    ("type", .str "function"),
    ("function", .obj [
      ("name", .str "get_todays_date"),
      ("description", .str "A tool that returns today\x27s date in the date format requested. Options are: \x27YYYY-MM-DD\x27, \x27DD\x27, \x27MM\x27, \x27YYYY\x27."),
      ("parameters", .obj [
        ("type", .str "object"),
        ("properties", .obj [
          ("date_format", .obj [
            ("type", .str "string"),
            ("enum", .arr [.str "%Y-%m-%d", .str "%d", .str "%m", .str "%Y"]),
            ("default", .str "%Y-%m-%d"),
            ("description", .str "The date format to return today\x27s date in.")
          ])
        ]),
        ("required", .arr [.str "date_format"])
      ])
    ])
  ]

/-- The list of format strings the tool schema declares in its `enum`. -/
def supportedDateFormats : Option Json :=
  (jsonGet todays_date_tool_json "function").bind fun f =>
    (jsonGet f "parameters").bind fun p =>
      (jsonGet p "properties").bind fun props =>
        (jsonGet props "date_format").bind fun df =>
          jsonGet df "enum"

/-- One streamed tool-call fragment: the `function` part of
`delta.tool_calls[0]`. -/
structure ToolCallFunctionDelta where
  name : Option String
  arguments : Option String
deriving DecidableEq

/-- One streamed tool-call fragment `delta.tool_calls[0]`. -/
structure ToolCallDelta where
  id : Option String
  function : ToolCallFunctionDelta
deriving DecidableEq

/-- The `delta` of one streamed chunk: `tool_calls` is empty when the chunk
carries regular content (Python treats both `None` and an empty list as
falsy). -/
structure Delta where
  tool_calls : List ToolCallDelta
  content : Option String
deriving DecidableEq

/-- One chunk of the response stream, `part.choices[0]`. -/
structure Chunk where
  delta : Delta
  finish_reason : Option String
deriving DecidableEq

/-- A completed tool-call record inside an assistant message. -/
structure ToolCallRecord where
  id : String
  type : String
  function_name : String
  function_arguments : String
deriving DecidableEq

/-- An OpenAI-format chat message, covering the dictionary shapes the script
builds: plain assistant content, assistant tool calls, and tool results. -/
structure Message where
  role : String
  content : Option String := none
  tool_calls : List ToolCallRecord := []
  tool_call_id : Option String := none
deriving DecidableEq

/-- Translation of `simulate_response_as_message`. -/
def simulate_response_as_message (response : String) : Message :=
  { role := "assistant", content := some response }

/-- Translation of `simulate_tool_call_as_message`. -/
def simulate_tool_call_as_message (tool_call_id : String) (function_name : String)
    (function_arguments : String) : Message :=
  { role := "assistant",
    tool_calls := [⟨tool_call_id, "function", function_name, function_arguments⟩] }

/-- Translation of `simulate_tool_call_response_as_message`. -/
def simulate_tool_call_response_as_message (tool_call_id : String)
    (function_response : String) : Message :=
  { role := "tool", content := some function_response, tool_call_id := some tool_call_id }

/-- The ambient Python environment of the module: the callable globals that
tool dispatch can reach (name together with behaviour, where a returned
`Except.error` stands for an exception raised inside the call, caught by the
handler), and the external `json.loads` parser (`none` standing for a raised
`json.JSONDecodeError`). -/
structure PyEnv where
  tools : List (String × (Json → Except String Json))
  jsonLoads : String → Option Json

/-- Error text used when the tool name does not resolve to a callable. -/
def toolNotFoundText (function_name : String) : String :=
  "Tool \x27" ++ function_name ++ "\x27 not found or not callable."

/-- Error text used when the invoked tool raises. -/
def toolExceptionText (function_name : String) (exceptionText : String) : String :=
  "Exception in handling tool \x27" ++ function_name ++ "\x27: " ++ exceptionText

/-- Translation of `_handle_any_tool_call_for_stream_response`: the function
is looked up among the callable globals; a hit is invoked and its output
serialized, an exception inside the call is converted to a serialized error
object, and a miss (name absent or not callable) yields a serialized error
object as well.  Every outcome is returned as a string; nothing escapes the
broad `except`. -/
def _handle_any_tool_call_for_stream_response (env : PyEnv) (function_name : String)
    (arguments : Json) : String :=
  match env.tools.lookup function_name with
  | some tool_function =>
    match tool_function arguments with
    | .ok tool_output => dumps tool_output
    | .error e =>
      dumps (.obj [("error", .str (toolExceptionText function_name e)),
                   ("arguments", arguments)])
  | none =>
    dumps (.obj [("error", .str (toolNotFoundText function_name)),
                 ("arguments", arguments)])

/-- The local variables of `stream_response` mutated while consuming the
stream.  `function_response` and `finish_reason` start out unassigned
(`none` at the outer option), which Python surfaces as `UnboundLocalError`
when read. -/
structure LoopState where
  function_arguments : String
  function_name : String
  function_call_id : String
  is_collecting_function_args : Bool
  collected_messages : List (Option String)
  function_response : Option String
  finish_reason : Option (Option String)
deriving DecidableEq

/-- The loop variables as initialised at the top of `stream_response`. -/
def initLoopState : LoopState :=
  { function_arguments := ""
    function_name := ""
    function_call_id := ""
    is_collecting_function_args := false
    collected_messages := []
    function_response := none
    finish_reason := none }

/-- Python truthiness of an optional string: `None` and the empty string are
falsy. -/
def pyTruthy (o : Option String) : Bool :=
  match o with
  | none => false
  | some s => !s.isEmpty

/-- The per-chunk branch of the loop body of `stream_response`: a chunk
without tool calls appends its content to `collected_messages`; a tool-call
chunk accumulates id, name, and argument fragments. -/
def applyDelta (s : LoopState) (d : Delta) : LoopState :=
  match d.tool_calls with
  | [] => { s with collected_messages := s.collected_messages ++ [d.content] }
  | tool_call :: _ =>
    let s1 := { s with is_collecting_function_args := true }
    let s2 :=
      if pyTruthy tool_call.id then
        { s1 with function_call_id := tool_call.id.getD "" }
      else s1
    let s3 :=
      if pyTruthy tool_call.function.name then
        { s2 with function_name := tool_call.function.name.getD "" }
      else s2
    if pyTruthy tool_call.function.arguments then
      { s3 with function_arguments := s3.function_arguments ++ tool_call.function.arguments.getD "" }
    else s3

/-- One full iteration of the loop body of `stream_response`: record the
finish reason, fold the delta in, and, when the chunk both finishes with
`"tool_calls"` and arguments were being collected, parse the arguments
(`json.loads`, outside any `try`) and invoke the tool handler. -/
def processChunk (env : PyEnv) (s : LoopState) (c : Chunk) : Except PyErr LoopState :=
  let s1 := applyDelta { s with finish_reason := some c.finish_reason } c.delta
  if c.finish_reason = some "tool_calls" ∧ s1.is_collecting_function_args = true then
    match env.jsonLoads s1.function_arguments with
    | none => .error .jsonDecodeError
    | some args =>
      .ok { s1 with
            function_response :=
              some (_handle_any_tool_call_for_stream_response env s1.function_name args),
            is_collecting_function_args := false }
  else
    .ok s1

/-- The whole `for part in response_stream` loop of `stream_response`. -/
def loopRun (env : PyEnv) : LoopState → List Chunk → Except PyErr LoopState
  | s, [] => .ok s
  | s, c :: cs =>
    match processChunk env s c with
    | .ok s1 => loopRun env s1 cs
    | .error e => .error e

/-- The opaque chat completion service: the message history submitted by
`client.chat.completions.create` determines the chunk stream it returns. -/
def Client : Type := List Message → List Chunk

/-- Translation of `stream_response`, instrumented with the list of message
histories submitted to the chat completion service.  The `fuel` bounds the
recursion depth (Python enforces one as `RecursionError`); every other error
is a genuine uncaught Python exception of the source.  The second component
records, in order, each history passed to `client.chat.completions.create`. -/
def stream_response_aux (env : PyEnv) (client : Client) :
    Nat → List Message → Except PyErr Message × List (List Message)
  | 0, _ => (.error .recursionError, [])
  | fuel + 1, messages =>
    match loopRun env initLoopState (client messages) with
    | .error e => (.error e, [messages])
    | .ok st =>
      match st.finish_reason with
      | none => (.error .unboundLocalError, [messages])
      | some fr =>
        if fr = some "tool_calls" then
          match st.function_response with
          | none => (.error .unboundLocalError, [messages])
          | some resp =>
            let tool_call_response_message :=
              simulate_tool_call_response_as_message st.function_call_id resp
            if pyContains resp "error" then
              (.ok tool_call_response_message, [messages])
            else
              let extended := messages ++
                [simulate_tool_call_as_message st.function_call_id st.function_name
                   st.function_arguments,
                 tool_call_response_message]
              let r := stream_response_aux env client fuel extended
              (r.1, messages :: r.2)
        else
          (.ok (simulate_response_as_message
            (String.join (st.collected_messages.filterMap id))), [messages])

/-- The returned message of `stream_response` (the trace of submitted
histories dropped). -/
def stream_response (env : PyEnv) (client : Client) (fuel : Nat)
    (messages : List Message) : Except PyErr Message :=
  (stream_response_aux env client fuel messages).1

end TutorialFunctions

namespace TestNotebooks

/-- A notebook cell as far as `replace_code_in_notebook` inspects it. -/
structure Cell where
  cell_type : String
  source : String
deriving DecidableEq

/-- Translation of `replace_code_in_notebook` from `src/test_notebooks.py`,
with the notebook file abstracted to its list of cells (the nbformat read
and write are filesystem I/O).  The loop rewrites the first code cell whose
source contains `old_code` and then `break`s; later cells are untouched. -/
def replace_code_in_notebook (old_code new_code : String) : List Cell → List Cell
  | [] => []
  | cell :: rest =>
    if cell.cell_type = "code" ∧ pyContains cell.source old_code = true then
      { cell with source := pyReplace cell.source old_code new_code } :: rest
    else
      cell :: replace_code_in_notebook old_code new_code rest

/-- The `old_code` constant of `src/test_notebooks.py`. -/
def old_code : String :=
  "API_KEY = \"<insert your API key>\"\nstudio = Studio(API_KEY)"

/-- The `new_code` constant of `src/test_notebooks.py`. -/
def new_code : String :=
  "import os\nAPI_KEY = os.getenv(\"CLEANLAB_API_KEY\")"

/-- Observable actions of the notebook runner: an attempted notebook
processing (the contents of one `try` block), the fixed `time.sleep(10)`,
one Slack webhook post, and one printed line. -/
inductive Event where
  | processed (name : String)
  | slept (seconds : Nat)
  | slack (message : String)
  | printed (line : String)
deriving DecidableEq

/-- The `for notebook_name in os.listdir(...)` loop of `main`: directory
entries not ending in `.ipynb` are skipped; each notebook is processed (its
substitution and papermill execution summarised by the external predicate
`raises`, true when the `try` block raises), a failure appends the name to
`failed_notebooks`, and a ten second sleep follows each notebook either
way.  Returns the final `failed_notebooks` list and the emitted events. -/
def notebookLoop (raises : String → Bool) : List String → List String × List Event
  | [] => ([], [])
  | name :: rest =>
    if pyEndsWith name ".ipynb" then
      let r := notebookLoop raises rest
      ((if raises name then [name] else []) ++ r.1,
       Event.processed name :: Event.slept 10 :: r.2)
    else
      notebookLoop raises rest

/-- Model of the attribute access `datetime.now` evaluated at
`src/test_notebooks.py:91`.  The script runs `import datetime`, binding the
module, and the datetime module object has no attribute `now` (only the
class `datetime.datetime` inside it does), so the access raises
`AttributeError`. -/
def datetime_module_now : Except PyErr Date :=
  .error .attributeError

/-- Translation of `main` from `src/test_notebooks.py`: run the loop over
the directory listing, then either post the failure summary to Slack and
print the failed names, or, on the all-pass path, format the success
message, which evaluates `datetime.now()` first.  Returns the final
`failed_notebooks` list, the event trace, and the outcome of the call. -/
def main (listing : List String) (raises : String → Bool) :
    List String × List Event × Except PyErr Unit :=
  let r := notebookLoop raises listing
  let failed_notebooks := r.1
  if failed_notebooks.isEmpty then
    match datetime_module_now with
    | .error e => (failed_notebooks, r.2, .error e)
    | .ok now =>
      (failed_notebooks,
       r.2 ++ [Event.printed ("All notebooks passed successfully at " ++
         strftime now "%d/%m/%Y_%H:%M:%S")],
       .ok ())
  else
    (failed_notebooks,
     r.2 ++ [Event.slack ("The following notebooks failed: " ++
         String.intercalate ", " failed_notebooks)]
       ++ failed_notebooks.map Event.printed,
     .ok ())

/-- Decidable check that a trace contains a Slack webhook post. -/
def hasSlackEvent (events : List Event) : Bool :=
  events.any fun e =>
    match e with
    | .slack _ => true
    | _ => false

/-- Decidable check that a trace contains a printed line. -/
def hasPrintedEvent (events : List Event) : Bool :=
  events.any fun e =>
    match e with
    | .printed _ => true
    | _ => false

end TestNotebooks

namespace TutorialFunctions

/-- Executable prefix test on message histories, used to state the
only-appended invariant in a form a concrete run can evaluate. -/
def isPrefixOfMessages : List Message → List Message → Bool
  | [], _ => true
  | _ :: _, [] => false
  | a :: ps, b :: ls => if a = b then isPrefixOfMessages ps ls else false

/-- Concrete scenario for the unknown-tool claim: the only callable tool is
`get_todays_date`, and the arguments string is the empty JSON object. -/
def envC1 : PyEnv :=
  ⟨[("get_todays_date", fun _ => .ok (.str "2025-01-02"))],
   fun s => if s = "\x7b\x7d" then some (.obj []) else none⟩

/-- Stream chunk requesting the undefined tool `get_weather`. -/
def chunkC1 : Chunk :=
  ⟨⟨[⟨some "call_1", ⟨some "get_weather", some "\x7b\x7d"⟩⟩], none⟩, some "tool_calls"⟩

/-- Client producing the unknown-tool stream for any history. -/
def clientC1 : Client := fun _ => [chunkC1]

/-- Loop state right after folding in the delta of `chunkC1`. -/
def s1C1 : LoopState :=
  { function_arguments := "\x7b\x7d"
    function_name := "get_weather"
    function_call_id := "call_1"
    is_collecting_function_args := true
    collected_messages := []
    function_response := none
    finish_reason := some (some "tool_calls") }

/-- Environment with no tools and a parser that always fails. -/
def envC4x : PyEnv := ⟨[], fun _ => none⟩

/-- Client whose single chunk carries no tool-call delta yet reports the
finish reason `"tool_calls"`. -/
def clientC4x : Client := fun _ => [⟨⟨[], some "hi"⟩, some "tool_calls"⟩]

/-- Environment for the plain-content witness stream. -/
def envC4w : PyEnv := ⟨[], fun _ => none⟩

/-- Client producing a pure content stream finishing with `"stop"`. -/
def clientC4w : Client := fun _ =>
  [⟨⟨[], some "Hello "⟩, none⟩, ⟨⟨[], none⟩, none⟩, ⟨⟨[], some "world."⟩, some "stop"⟩]

/-- Environment whose one tool succeeds with an output free of the letters
`error`. -/
def envC5 : PyEnv :=
  ⟨[("get_todays_date", fun _ => .ok (.str "2025-01-02"))],
   fun s => if s = "\x7b\x7d" then some (.obj []) else none⟩

/-- Stream chunk calling `get_todays_date` with empty-object arguments. -/
def chunkC5 : Chunk :=
  ⟨⟨[⟨some "call_5", ⟨some "get_todays_date", some "\x7b\x7d"⟩⟩], none⟩, some "tool_calls"⟩

/-- Client that first requests the tool call and answers any extended
history with a plain text completion. -/
def clientC5 : Client := fun msgs =>
  if msgs.isEmpty then [chunkC5]
  else [⟨⟨[], some "Today is 2025-01-02."⟩, some "stop"⟩]

/-- Loop state right after folding in the delta of `chunkC5`. -/
def s1C5 : LoopState :=
  { function_arguments := "\x7b\x7d"
    function_name := "get_todays_date"
    function_call_id := "call_5"
    is_collecting_function_args := true
    collected_messages := []
    function_response := none
    finish_reason := some (some "tool_calls") }

/-- Environment whose one tool succeeds but mentions the word `errors` in
its perfectly successful output. -/
def envC5x : PyEnv :=
  ⟨[("get_report", fun _ => .ok (.str "all clear, zero errors"))],
   fun s => if s = "\x7b\x7d" then some (.obj []) else none⟩

/-- Client requesting the `get_report` tool call. -/
def clientC5x : Client := fun _ =>
  [⟨⟨[⟨some "call_1", ⟨some "get_report", some "\x7b\x7d"⟩⟩], none⟩, some "tool_calls"⟩]

/-- Environment whose parser rejects every argument string. -/
def envC8 : PyEnv := ⟨[], fun _ => none⟩

/-- Client streaming a tool call whose accumulated arguments are not valid
JSON. -/
def clientC8 : Client := fun _ =>
  [⟨⟨[⟨some "call_8", ⟨some "get_todays_date", some "not json"⟩⟩], none⟩, some "tool_calls"⟩]

/-- Loop state right after folding in the delta of the `clientC8` chunk. -/
def s1C8 : LoopState :=
  { function_arguments := "not json"
    function_name := "get_todays_date"
    function_call_id := "call_8"
    is_collecting_function_args := true
    collected_messages := []
    function_response := none
    finish_reason := some (some "tool_calls") }

/-- Environment whose one tool succeeds with an output that happens to
contain the characters `error`. -/
def envC10 : PyEnv :=
  ⟨[("count_errors", fun _ => .ok (.str "found 0 errors"))],
   fun s => if s = "\x7b\x7d" then some (.obj []) else none⟩

/-- Client requesting the `count_errors` tool call. -/
def clientC10 : Client := fun _ =>
  [⟨⟨[⟨some "call_10", ⟨some "count_errors", some "\x7b\x7d"⟩⟩], none⟩, some "tool_calls"⟩]

/-- Final loop state of the `clientC10` stream. -/
def stC10 : LoopState :=
  { function_arguments := "\x7b\x7d"
    function_name := "count_errors"
    function_call_id := "call_10"
    is_collecting_function_args := false
    collected_messages := []
    function_response := some (dumps (Json.str "found 0 errors"))
    finish_reason := some (some "tool_calls") }

end TutorialFunctions

section Helpers

/-- Appending strings appends their character lists. -/
theorem toList_append (a b : String) : (a ++ b).toList = a.toList ++ b.toList :=
  String.data_append a b

/-- Building a string from an appended character list appends the strings. -/
theorem mk_append_chars (a b : List Char) : String.mk (a ++ b) = String.mk a ++ String.mk b :=
  rfl

/-- The substring test agrees with list infixes. -/
theorem pyContains_iff (hay needle : String) :
    pyContains hay needle = true ↔ needle.toList <:+: hay.toList := by
  simp only [pyContains, List.any_eq_true, List.mem_tails, List.isPrefixOf_iff_prefix]
  constructor
  · rintro ⟨t, ht, hp⟩
    exact List.infix_iff_prefix_suffix.mpr ⟨t, hp, ht⟩
  · intro h
    obtain ⟨t, hp, ht⟩ := List.infix_iff_prefix_suffix.mp h
    exact ⟨t, ht, hp⟩

/-- A string that is visibly built around the needle contains it. -/
theorem pyContains_sandwich (x n y : String) : pyContains (x ++ n ++ y) n = true := by
  rw [pyContains_iff]
  exact ⟨x.toList, y.toList, by simp [toList_append]⟩

/-- The escaping of a JSON string literal distributes over appending. -/
theorem escapeString_append (a b : String) :
    escapeString (a ++ b) = escapeString a ++ escapeString b := by
  simp [escapeString, toList_append, mk_append_chars]

end Helpers

namespace TutorialFunctions

/-- Folding in a delta never touches the recorded finish reason. -/
theorem applyDelta_finish_reason (s : LoopState) (d : Delta) :
    (applyDelta s d).finish_reason = s.finish_reason := by
  unfold applyDelta
  cases d.tool_calls with
  | nil => rfl
  | cons tc rest =>
    simp only
    split <;> split <;> split <;> rfl

/-- Running the loop on appended chunk lists runs them in sequence, the
second part only when the first part raised nothing. -/
theorem loopRun_append (env : PyEnv) (s : LoopState) (l₁ l₂ : List Chunk) :
    loopRun env s (l₁ ++ l₂) =
      match loopRun env s l₁ with
      | .ok s1 => loopRun env s1 l₂
      | .error e => .error e := by
  induction l₁ generalizing s with
  | nil => simp [loopRun]
  | cons c cs ih =>
    simp only [List.cons_append, loopRun]
    cases processChunk env s c with
    | ok s1 => exact ih s1
    | error e => rfl

/-- A delta without tool calls only appends its content chunk. -/
theorem applyDelta_no_toolcalls (s : LoopState) (d : Delta) (h : d.tool_calls = []) :
    applyDelta s d = { s with collected_messages := s.collected_messages ++ [d.content] } := by
  unfold applyDelta
  rw [h]

/-- A chunk without tool calls, seen while no arguments are being collected,
records the finish reason and its content and nothing else. -/
theorem processChunk_no_toolcalls (env : PyEnv) (s : LoopState) (c : Chunk)
    (h : c.delta.tool_calls = []) (hic : s.is_collecting_function_args = false) :
    processChunk env s c = .ok { s with
      finish_reason := some c.finish_reason,
      collected_messages := s.collected_messages ++ [c.delta.content] } := by
  unfold processChunk
  rw [applyDelta_no_toolcalls _ _ h]
  simp [hic]

/-- A chunk that finishes with `"tool_calls"` while arguments are being
collected parses the arguments and stores the handler response. -/
theorem processChunk_toolcall (env : PyEnv) (s s1 : LoopState) (c : Chunk) (args : Json)
    (hs1 : applyDelta { s with finish_reason := some c.finish_reason } c.delta = s1)
    (hfin : c.finish_reason = some "tool_calls")
    (hcoll : s1.is_collecting_function_args = true)
    (hparse : env.jsonLoads s1.function_arguments = some args) :
    processChunk env s c = .ok { s1 with
      function_response :=
        some (_handle_any_tool_call_for_stream_response env s1.function_name args),
      is_collecting_function_args := false } := by
  unfold processChunk
  rw [hs1, hfin]
  simp [hcoll, hparse]

end TutorialFunctions

namespace TutorialFunctions

/-- Every message history ever submitted to the completion service during a
run of `stream_response` extends the history the run started from: messages
are only appended, never modified or reordered. -/
theorem stream_response_trace_extends (env : PyEnv) (client : Client) :
    ∀ (fuel : Nat) (messages H : List Message),
      H ∈ (stream_response_aux env client fuel messages).2 → messages <+: H := by
  intro fuel
  induction fuel with
  | zero =>
    intro messages H h
    simp [stream_response_aux] at h
  | succ n ih =>
    intro messages H h
    simp only [stream_response_aux] at h
    split at h
    · simp at h
      subst h
      exact List.prefix_refl _
    · split at h
      · simp at h
        subst h
        exact List.prefix_refl _
      · split at h
        · split at h
          · simp at h
            subst h
            exact List.prefix_refl _
          · split at h
            · simp at h
              subst h
              exact List.prefix_refl _
            · simp only [List.mem_cons] at h
              rcases h with h | h
              · subst h
                exact List.prefix_refl _
              · exact (List.prefix_append _ _).trans (ih _ _ h)
        · simp at h
          subst h
          exact List.prefix_refl _

/-- Running the loop over chunks that carry no tool-call delta collects the
content of every chunk in order and records the finish reason of the last
chunk, and nothing can be raised. -/
theorem loopRun_content_only (env : PyEnv) :
    ∀ (chunks : List Chunk) (s : LoopState),
      (∀ ch ∈ chunks, ch.delta.tool_calls = []) →
      s.is_collecting_function_args = false →
      loopRun env s chunks = .ok { s with
        collected_messages :=
          s.collected_messages ++ chunks.map (fun ch => ch.delta.content),
        finish_reason :=
          (chunks.map (fun ch => some ch.finish_reason)).getLastD s.finish_reason } := by
  intro chunks
  induction chunks with
  | nil =>
    intro s _ _
    obtain ⟨fa, fn, fid, ic, cm, fre, fin⟩ := s
    simp [loopRun]
  | cons c cs ih =>
    intro s hno hic
    have hc : c.delta.tool_calls = [] := hno c (List.mem_cons_self c cs)
    have hrest : ∀ ch ∈ cs, ch.delta.tool_calls = [] :=
      fun ch hm => hno ch (List.mem_cons_of_mem c hm)
    simp only [loopRun]
    rw [processChunk_no_toolcalls env s c hc hic]
    dsimp only
    have hstep := ih { s with finish_reason := some c.finish_reason,
                              collected_messages := s.collected_messages ++ [c.delta.content] }
      hrest hic
    rw [hstep]
    obtain ⟨fa, fn, fid, ic, cm, fre, fin⟩ := s
    simp only [List.map_cons, List.getLastD_cons, List.append_assoc, List.singleton_append]

end TutorialFunctions

section ContainsLemmas

/-- Every string contains itself. -/
theorem pyContains_self (s : String) : pyContains s s = true := by
  rw [pyContains_iff]

/-- Containment is preserved by appending on the right. -/
theorem pyContains_append_right (x y n : String) (h : pyContains x n = true) :
    pyContains (x ++ y) n = true := by
  rw [pyContains_iff] at h ⊢
  rw [toList_append]
  exact h.trans (List.prefix_append _ _).isInfix

/-- Containment is preserved by appending on the left. -/
theorem pyContains_append_left (x y n : String) (h : pyContains y n = true) :
    pyContains (x ++ y) n = true := by
  rw [pyContains_iff] at h ⊢
  rw [toList_append]
  exact h.trans (List.suffix_append _ _).isInfix

end ContainsLemmas

namespace TutorialFunctions

/-- The executable prefix test agrees with the prefix relation. -/
theorem isPrefixOfMessages_sound :
    ∀ (p l : List Message), p <+: l → isPrefixOfMessages p l = true := by
  intro p
  induction p with
  | nil => intro l _; rfl
  | cons a ps ih =>
    intro l hp
    cases l with
    | nil => exact absurd (List.eq_nil_of_prefix_nil hp) (by simp)
    | cons b ls =>
      rw [List.cons_prefix_cons] at hp
      obtain ⟨hab, hps⟩ := hp
      simp [isPrefixOfMessages, hab, ih ls hps]

end TutorialFunctions

namespace TestNotebooks

/-- The failure list collected by the notebook loop is exactly the `.ipynb`
entries whose processing raised, in enumeration order. -/
theorem notebookLoop_failed (raises : String → Bool) :
    ∀ listing : List String,
      (notebookLoop raises listing).1 =
        listing.filter (fun n => pyEndsWith n ".ipynb" && raises n) := by
  intro listing
  induction listing with
  | nil => rfl
  | cons x xs ih =>
    cases hend : pyEndsWith x ".ipynb" <;> cases hr : raises x <;>
      simp [notebookLoop, hend, hr, List.filter_cons, ih]

/-- The events emitted by the notebook loop are one processing event and one
sleep event per `.ipynb` entry, in enumeration order, whatever raises. -/
theorem notebookLoop_events (raises : String → Bool) :
    ∀ listing : List String,
      (notebookLoop raises listing).2 =
        (listing.filter (fun n => pyEndsWith n ".ipynb")).flatMap
          (fun n => [Event.processed n, Event.slept 10]) := by
  intro listing
  induction listing with
  | nil => rfl
  | cons x xs ih =>
    cases hend : pyEndsWith x ".ipynb" <;>
      simp [notebookLoop, hend, List.filter_cons, ih]

/-- The notebook loop itself posts nothing to Slack. -/
theorem notebookLoop_no_slack (raises : String → Bool) :
    ∀ listing : List String, hasSlackEvent (notebookLoop raises listing).2 = false := by
  intro listing
  induction listing with
  | nil => rfl
  | cons x xs ih =>
    cases hend : pyEndsWith x ".ipynb" <;>
      simp_all [notebookLoop, hasSlackEvent, hend]

/-- The notebook loop itself prints nothing. -/
theorem notebookLoop_no_printed (raises : String → Bool) :
    ∀ listing : List String, hasPrintedEvent (notebookLoop raises listing).2 = false := by
  intro listing
  induction listing with
  | nil => rfl
  | cons x xs ih =>
    cases hend : pyEndsWith x ".ipynb" <;>
      simp_all [notebookLoop, hasPrintedEvent, hend]

/-- The failure list returned by `main` is the one collected by its loop. -/
theorem main_failed (listing : List String) (raises : String → Bool) :
    (main listing raises).1 = (notebookLoop raises listing).1 := by
  simp only [main]
  split <;> rfl

/-- A run of `replace_code_in_notebook` passes over leading cells in which
nothing matches. -/
theorem replace_code_skips_unmatched (old_code new_code : String) :
    ∀ (pre : List Cell),
      (∀ c ∈ pre, ¬(c.cell_type = "code" ∧ pyContains c.source old_code = true)) →
      ∀ rest : List Cell,
        replace_code_in_notebook old_code new_code (pre ++ rest) =
          pre ++ replace_code_in_notebook old_code new_code rest := by
  intro pre
  induction pre with
  | nil => intro _ rest; rfl
  | cons p ps ih =>
    intro hpre rest
    have hp := hpre p (List.mem_cons_self p ps)
    simp only [List.cons_append, replace_code_in_notebook]
    rw [if_neg hp]
    simp only [List.append_eq]
    rw [ih (fun c hm => hpre c (List.mem_cons_of_mem p hm)) rest]

/-- A notebook in which no code cell contains the pattern is written back
with every cell unchanged. -/
theorem replace_code_no_match (old_code new_code : String) :
    ∀ cells : List Cell,
      (∀ c ∈ cells, ¬(c.cell_type = "code" ∧ pyContains c.source old_code = true)) →
      replace_code_in_notebook old_code new_code cells = cells := by
  intro cells
  induction cells with
  | nil => intro _; rfl
  | cons x xs ih =>
    intro hnone
    simp only [replace_code_in_notebook]
    rw [if_neg (hnone x (List.mem_cons_self x xs)),
        ih (fun c hm => hnone c (List.mem_cons_of_mem x hm))]

end TestNotebooks

section DumpsLemmas

/-- Serialized shape of a two-field JSON object, with the association the
serializer produces. -/
theorem dumps_two_field_obj (k1 k2 : String) (v1 v2 : Json) :
    dumps (.obj [(k1, v1), (k2, v2)]) =
      "\x7b" ++ ("\"" ++ escapeString k1 ++ "\": " ++ dumps v1 ++ ", " ++
        ("\"" ++ escapeString k2 ++ "\": " ++ dumps v2)) ++ "\x7d" := rfl

/-- The serialized error object contains the substring `error`. -/
theorem error_obj_contains_error (t : String) (args : Json) :
    pyContains (dumps (.obj [("error", .str t), ("arguments", args)])) "error" = true := by
  rw [dumps_two_field_obj]
  apply pyContains_append_right
  apply pyContains_append_left
  apply pyContains_append_right
  apply pyContains_append_right
  apply pyContains_append_right
  apply pyContains_append_right
  apply pyContains_append_left
  rw [show escapeString "error" = "error" from rfl]
  exact pyContains_self "error"

/-- The serialized error object contains the serialized arguments. -/
theorem error_obj_contains_args (t : String) (args : Json) :
    pyContains (dumps (.obj [("error", .str t), ("arguments", args)])) (dumps args) = true := by
  rw [dumps_two_field_obj]
  apply pyContains_append_right
  apply pyContains_append_left
  apply pyContains_append_left
  apply pyContains_append_left
  exact pyContains_self (dumps args)

end DumpsLemmas

namespace TutorialFunctions

/-- The serialized unknown-tool error object contains the fixed part of the
error text, whatever function name was collected. -/
theorem error_obj_contains_not_found (function_name : String) (args : Json) :
    pyContains (dumps (.obj [("error", .str (toolNotFoundText function_name)),
        ("arguments", args)])) "not found or not callable." = true := by
  rw [dumps_two_field_obj]
  apply pyContains_append_right
  apply pyContains_append_left
  apply pyContains_append_right
  apply pyContains_append_right
  apply pyContains_append_left
  rw [show dumps (.str (toolNotFoundText function_name)) =
        "\"" ++ escapeString (toolNotFoundText function_name) ++ "\"" from rfl]
  apply pyContains_append_right
  apply pyContains_append_left
  rw [show toolNotFoundText function_name =
        "Tool \x27" ++ function_name ++ "\x27 not found or not callable." from rfl,
      escapeString_append, escapeString_append]
  apply pyContains_append_left
  rw [show escapeString "\x27 not found or not callable." =
        "\x27 not found or not callable." from rfl,
      show ("\x27 not found or not callable." : String) =
        "\x27 " ++ "not found or not callable." ++ "" from rfl]
  exact pyContains_sandwich "\x27 " "not found or not callable." ""

/-- A chunk that finishes with `"tool_calls"` while arguments are being
collected but whose accumulated arguments do not parse raises the JSON
decode error out of the loop. -/
theorem processChunk_parse_error (env : PyEnv) (s s1 : LoopState) (c : Chunk)
    (hs1 : applyDelta { s with finish_reason := some c.finish_reason } c.delta = s1)
    (hfin : c.finish_reason = some "tool_calls")
    (hcoll : s1.is_collecting_function_args = true)
    (hparse : env.jsonLoads s1.function_arguments = none) :
    processChunk env s c = .error .jsonDecodeError := by
  unfold processChunk
  rw [hs1, hfin]
  simp [hcoll, hparse]

end TutorialFunctions

/-- C2: after the loop over the notebook directory completes, the
`failed_notebooks` list holds exactly the `.ipynb` entries whose processing
raised an exception, in directory-enumeration order, and when that list is
empty no Slack webhook message is ever posted. -/
theorem claim_C2_failed_list_and_no_slack (listing : List String) (raises : String → Bool) :
    (TestNotebooks.main listing raises).1 =
      listing.filter (fun n => pyEndsWith n ".ipynb" && raises n)
    ∧ ((TestNotebooks.main listing raises).1 = [] →
        TestNotebooks.hasSlackEvent (TestNotebooks.main listing raises).2.1 = false) := by
  constructor
  · rw [TestNotebooks.main_failed, TestNotebooks.notebookLoop_failed]
  · intro h
    have h0 : (TestNotebooks.notebookLoop raises listing).1 = [] := by
      rw [← TestNotebooks.main_failed]
      exact h
    simp only [TestNotebooks.main, h0, TestNotebooks.datetime_module_now, List.isEmpty_nil,
      if_true]
    exact TestNotebooks.notebookLoop_no_slack raises listing

/-- C2 witness: a listing with one passing notebook and a stray text file
yields the empty failure list and no Slack post. -/
theorem claim_C2_witness :
    (TestNotebooks.main ["a.ipynb", "notes.txt"] (fun _ => false)).1 =
      (["a.ipynb", "notes.txt"].filter (fun n => pyEndsWith n ".ipynb" && (fun _ => false) n))
    ∧ TestNotebooks.hasSlackEvent
        (TestNotebooks.main ["a.ipynb", "notes.txt"] (fun _ => false)).2.1 = false :=
  ⟨(claim_C2_failed_list_and_no_slack ["a.ipynb", "notes.txt"] (fun _ => false)).1,
   (claim_C2_failed_list_and_no_slack ["a.ipynb", "notes.txt"] (fun _ => false)).2 rfl⟩

/-- C6: the runner never aborts on a failure: independently of which
notebooks raise, the loop emits one processing event followed by the fixed
ten-second sleep for every `.ipynb` entry, strictly in enumeration order,
and every raising `.ipynb` entry is recorded in the failure list. -/
theorem claim_C6_never_aborts (listing : List String) (raises : String → Bool) :
    (TestNotebooks.notebookLoop raises listing).2 =
      (listing.filter (fun n => pyEndsWith n ".ipynb")).flatMap
        (fun n => [TestNotebooks.Event.processed n, TestNotebooks.Event.slept 10])
    ∧ ∀ n ∈ listing, pyEndsWith n ".ipynb" = true → raises n = true →
        n ∈ (TestNotebooks.main listing raises).1 := by
  refine ⟨TestNotebooks.notebookLoop_events raises listing, ?_⟩
  intro n hmem hend hr
  rw [TestNotebooks.main_failed, TestNotebooks.notebookLoop_failed]
  exact List.mem_filter.mpr ⟨hmem, by simp [hend, hr]⟩

/-- C6 witness: with every notebook raising, the trace still covers both
entries and the failing notebook is recorded. -/
theorem claim_C6_witness :
    (TestNotebooks.notebookLoop (fun _ => true) ["a.ipynb", "notes.txt"]).2 =
      ((["a.ipynb", "notes.txt"].filter (fun n => pyEndsWith n ".ipynb")).flatMap
        (fun n => [TestNotebooks.Event.processed n, TestNotebooks.Event.slept 10]))
    ∧ "a.ipynb" ∈ (TestNotebooks.main ["a.ipynb", "notes.txt"] (fun _ => true)).1 :=
  ⟨(claim_C6_never_aborts ["a.ipynb", "notes.txt"] (fun _ => true)).1,
   (claim_C6_never_aborts ["a.ipynb", "notes.txt"] (fun _ => true)).2 "a.ipynb"
     (by simp) rfl rfl⟩

/-- C7: for every notebook, the substitution rewrites the code cell
containing `old_code` (replacing it by `new_code` inside its source) and
leaves every other cell unchanged, and a notebook with no matching code
cell is written back with all cell sources unchanged. -/
theorem claim_C7_replace_credentials (pre post : List TestNotebooks.Cell)
    (cell : TestNotebooks.Cell)
    (hmatch : cell.cell_type = "code" ∧ pyContains cell.source TestNotebooks.old_code = true)
    (hpre : ∀ c ∈ pre,
      ¬(c.cell_type = "code" ∧ pyContains c.source TestNotebooks.old_code = true)) :
    TestNotebooks.replace_code_in_notebook TestNotebooks.old_code TestNotebooks.new_code
        (pre ++ cell :: post) =
      pre ++
        { cell with
          source := pyReplace cell.source TestNotebooks.old_code TestNotebooks.new_code } :: post
    ∧ ∀ cells : List TestNotebooks.Cell,
        (∀ c ∈ cells,
          ¬(c.cell_type = "code" ∧ pyContains c.source TestNotebooks.old_code = true)) →
        TestNotebooks.replace_code_in_notebook TestNotebooks.old_code TestNotebooks.new_code
          cells = cells := by
  constructor
  · rw [TestNotebooks.replace_code_skips_unmatched _ _ pre hpre]
    simp only [TestNotebooks.replace_code_in_notebook]
    rw [if_pos hmatch]
  · exact TestNotebooks.replace_code_no_match _ _

/-- C7 witness: a three-cell notebook whose middle code cell holds the
credential snippet, and a separate all-markdown notebook left untouched. -/
theorem claim_C7_witness :
    TestNotebooks.replace_code_in_notebook TestNotebooks.old_code TestNotebooks.new_code
        ([⟨"markdown", "Setup"⟩] ++ ⟨"code", TestNotebooks.old_code⟩ ::
          [⟨"code", "studio.ping()"⟩]) =
      [⟨"markdown", "Setup"⟩] ++ ⟨"code",
        pyReplace TestNotebooks.old_code TestNotebooks.old_code TestNotebooks.new_code⟩ ::
          [⟨"code", "studio.ping()"⟩]
    ∧ TestNotebooks.replace_code_in_notebook TestNotebooks.old_code TestNotebooks.new_code
        [⟨"markdown", "Only prose"⟩] = [⟨"markdown", "Only prose"⟩] :=
  ⟨(claim_C7_replace_credentials [⟨"markdown", "Setup"⟩] [⟨"code", "studio.ping()"⟩]
      ⟨"code", TestNotebooks.old_code⟩
      ⟨rfl, pyContains_self TestNotebooks.old_code⟩ (by decide)).1,
   (claim_C7_replace_credentials [⟨"markdown", "Setup"⟩] [⟨"code", "studio.ping()"⟩]
      ⟨"code", TestNotebooks.old_code⟩
      ⟨rfl, pyContains_self TestNotebooks.old_code⟩ (by decide)).2
     [⟨"markdown", "Only prose"⟩] (by decide)⟩

/-- C9: when every notebook passes, `main` evaluates `datetime.now()` on the
datetime module and raises `AttributeError` before printing anything: the
all-pass run always ends in an exception and the success message is
unreachable. -/
theorem claim_C9_allpass_attribute_error (listing : List String) (raises : String → Bool)
    (hall : (TestNotebooks.main listing raises).1 = []) :
    (TestNotebooks.main listing raises).2.2 = .error .attributeError
    ∧ TestNotebooks.hasPrintedEvent (TestNotebooks.main listing raises).2.1 = false := by
  have h0 : (TestNotebooks.notebookLoop raises listing).1 = [] := by
    rw [← TestNotebooks.main_failed]
    exact hall
  constructor
  · simp [TestNotebooks.main, h0, TestNotebooks.datetime_module_now]
  · simp only [TestNotebooks.main, h0, TestNotebooks.datetime_module_now, List.isEmpty_nil,
      if_true]
    exact TestNotebooks.notebookLoop_no_printed raises listing

/-- C9 witness: a single passing notebook makes the run end in the
attribute error with nothing printed. -/
theorem claim_C9_witness :
    (TestNotebooks.main ["a.ipynb"] (fun _ => false)).2.2 = .error .attributeError
    ∧ TestNotebooks.hasPrintedEvent
        (TestNotebooks.main ["a.ipynb"] (fun _ => false)).2.1 = false :=
  claim_C9_allpass_attribute_error ["a.ipynb"] (fun _ => false) rfl

namespace TutorialFunctions

/-- The directive `%Y` renders the zero-padded four-digit year. -/
theorem strftimeDir_Y (d : Date) : strftimeDir d 'Y' = zfill 4 (Nat.toDigits 10 d.year) := rfl

/-- The directive `%m` renders the zero-padded two-digit month. -/
theorem strftimeDir_m (d : Date) : strftimeDir d 'm' = zfill 2 (Nat.toDigits 10 d.month) := rfl

/-- The directive `%d` renders the zero-padded two-digit day. -/
theorem strftimeDir_d (d : Date) : strftimeDir d 'd' = zfill 2 (Nat.toDigits 10 d.day) := rfl

/-- C3: for each of the four format strings offered by the tool schema,
`get_todays_date` returns the current date rendered in exactly that format
(zero-padded ISO date, two-digit day, two-digit month, four-digit year),
and the schema enum declares precisely these four formats. -/
theorem claim_C3_date_tool_formats :
    (∀ d : Date,
      get_todays_date d "%Y-%m-%d" =
        String.mk (zfill 4 (Nat.toDigits 10 d.year) ++
          '-' :: (zfill 2 (Nat.toDigits 10 d.month) ++ '-' :: zfill 2 (Nat.toDigits 10 d.day)))
      ∧ get_todays_date d "%d" = String.mk (zfill 2 (Nat.toDigits 10 d.day))
      ∧ get_todays_date d "%m" = String.mk (zfill 2 (Nat.toDigits 10 d.month))
      ∧ get_todays_date d "%Y" = String.mk (zfill 4 (Nat.toDigits 10 d.year)))
    ∧ supportedDateFormats =
        some (.arr [.str "%Y-%m-%d", .str "%d", .str "%m", .str "%Y"]) := by
  constructor
  · intro d
    refine ⟨?_, ?_, ?_, ?_⟩
    · show String.mk (zfill 4 (Nat.toDigits 10 d.year) ++
        '-' :: (zfill 2 (Nat.toDigits 10 d.month) ++
          '-' :: (zfill 2 (Nat.toDigits 10 d.day) ++ []))) = _
      rw [List.append_nil]
    · show String.mk (zfill 2 (Nat.toDigits 10 d.day) ++ []) = _
      rw [List.append_nil]
    · show String.mk (zfill 2 (Nat.toDigits 10 d.month) ++ []) = _
      rw [List.append_nil]
    · show String.mk (zfill 4 (Nat.toDigits 10 d.year) ++ []) = _
      rw [List.append_nil]
  · rfl

/-- C1: a streamed response that finishes with reason `tool_calls` and whose
collected function name does not name a callable in scope makes the run
return a tool-role message whose content is the serialized error object
containing the error text and the collected arguments, after exactly one
completion request and without recursing. -/
theorem claim_C1_unknown_tool_returns_error (env : PyEnv) (client : Client) (fuel : Nat)
    (messages : List Message) (cs : List Chunk) (c : Chunk) (st s1 : LoopState) (args : Json)
    (hstream : client messages = cs ++ [c])
    (hpre : loopRun env initLoopState cs = .ok st)
    (hs1 : applyDelta { st with finish_reason := some c.finish_reason } c.delta = s1)
    (hfin : c.finish_reason = some "tool_calls")
    (hcoll : s1.is_collecting_function_args = true)
    (hparse : env.jsonLoads s1.function_arguments = some args)
    (hname : env.tools.lookup s1.function_name = none) :
    stream_response_aux env client (fuel + 1) messages =
      (.ok (simulate_tool_call_response_as_message s1.function_call_id
        (dumps (.obj [("error", .str (toolNotFoundText s1.function_name)),
                      ("arguments", args)]))), [messages])
    ∧ pyContains (dumps (.obj [("error", .str (toolNotFoundText s1.function_name)),
        ("arguments", args)])) "error" = true
    ∧ pyContains (dumps (.obj [("error", .str (toolNotFoundText s1.function_name)),
        ("arguments", args)])) "not found or not callable." = true
    ∧ pyContains (dumps (.obj [("error", .str (toolNotFoundText s1.function_name)),
        ("arguments", args)])) (dumps args) = true := by
  have hhandler : _handle_any_tool_call_for_stream_response env s1.function_name args =
      dumps (.obj [("error", .str (toolNotFoundText s1.function_name)),
                   ("arguments", args)]) := by
    unfold _handle_any_tool_call_for_stream_response
    rw [hname]
  have hrun : loopRun env initLoopState (cs ++ [c]) =
      .ok { s1 with
        function_response := some (dumps (.obj
          [("error", .str (toolNotFoundText s1.function_name)), ("arguments", args)])),
        is_collecting_function_args := false } := by
    rw [loopRun_append, hpre]
    dsimp only
    simp only [loopRun]
    rw [processChunk_toolcall env st s1 c args hs1 hfin hcoll hparse, hhandler]
  have hs1fin : s1.finish_reason = some (some "tool_calls") := by
    rw [← hs1, applyDelta_finish_reason]
    show some c.finish_reason = _
    rw [hfin]
  refine ⟨?_, error_obj_contains_error _ _, error_obj_contains_not_found _ _,
    error_obj_contains_args _ _⟩
  simp only [stream_response_aux, hstream, hrun, hs1fin, error_obj_contains_error,
    if_true, ite_true]

/-- C1 witness: a stream calling the undefined tool `get_weather` with
empty-object arguments returns the serialized error object in one request. -/
theorem claim_C1_witness :
    stream_response_aux envC1 clientC1 1 [] =
      (.ok (simulate_tool_call_response_as_message s1C1.function_call_id
        (dumps (.obj [("error", .str (toolNotFoundText s1C1.function_name)),
                      ("arguments", Json.obj [])]))), [[]])
    ∧ pyContains (dumps (.obj [("error", .str (toolNotFoundText s1C1.function_name)),
        ("arguments", Json.obj [])])) "error" = true
    ∧ pyContains (dumps (.obj [("error", .str (toolNotFoundText s1C1.function_name)),
        ("arguments", Json.obj [])])) "not found or not callable." = true
    ∧ pyContains (dumps (.obj [("error", .str (toolNotFoundText s1C1.function_name)),
        ("arguments", Json.obj [])])) (dumps (Json.obj [])) = true :=
  claim_C1_unknown_tool_returns_error envC1 clientC1 0 [] [] chunkC1 initLoopState s1C1
    (Json.obj []) rfl rfl rfl rfl rfl rfl rfl

end TutorialFunctions

namespace TutorialFunctions

/-- C4 counterexample: every chunk of this stream is free of tool-call
deltas, yet the run raises `UnboundLocalError` (the final chunk reports
finish reason `tool_calls`, so line 134 reads the never-assigned
`function_response`) instead of returning an assistant message. -/
theorem claim_C4_counterexample :
    (∀ ch ∈ clientC4x [], ch.delta.tool_calls = ([] : List ToolCallDelta))
    ∧ stream_response envC4x clientC4x 1 [] = .error .unboundLocalError :=
  ⟨by decide, rfl⟩

/-- C4 amended: for every nonempty stream in which no chunk carries a
tool-call delta and whose last chunk does not finish with `tool_calls`, the
run makes exactly one completion request and returns an assistant-role
message whose content is the concatenation, in stream order, of the
non-None content chunks. -/
theorem claim_C4_content_only_stream (env : PyEnv) (client : Client) (fuel : Nat)
    (messages : List Message) (cs : List Chunk) (c : Chunk)
    (hstream : client messages = cs ++ [c])
    (hnotool : ∀ ch ∈ cs ++ [c], ch.delta.tool_calls = [])
    (hfin : ¬c.finish_reason = some "tool_calls") :
    stream_response_aux env client (fuel + 1) messages =
      (.ok (simulate_response_as_message
        (String.join (((cs ++ [c]).map (fun ch => ch.delta.content)).filterMap id))),
       [messages]) := by
  have hrun := loopRun_content_only env (cs ++ [c]) initLoopState hnotool rfl
  have hlast : ((cs ++ [c]).map (fun ch => some ch.finish_reason)).getLastD
      initLoopState.finish_reason = some c.finish_reason := by
    rw [List.map_append]
    simp
  rw [hlast] at hrun
  simp only [stream_response_aux, hstream, hrun]
  rw [if_neg hfin]
  simp [initLoopState]

/-- C4 witness for the amended statement: a three-chunk content stream
yields the concatenated text after one request. -/
theorem claim_C4_witness :
    stream_response_aux envC4w clientC4w 1 [] =
      (.ok (simulate_response_as_message "Hello world."), [[]]) := by
  have h := claim_C4_content_only_stream envC4w clientC4w 0 []
    [⟨⟨[], some "Hello "⟩, none⟩, ⟨⟨[], none⟩, none⟩] ⟨⟨[], some "world."⟩, some "stop"⟩
    rfl (by decide) (by decide)
  rw [h]
  rfl

/-- C5 counterexample: the `get_report` tool is found and invoked
successfully, yet nothing is appended to the history and no resubmission
happens: the run answers with the raw tool message after a single
completion request, because the successful serialized output contains the
characters `error`. -/
theorem claim_C5_counterexample :
    (envC5x.tools.lookup "get_report").isSome = true
    ∧ _handle_any_tool_call_for_stream_response envC5x "get_report" (Json.obj []) =
        dumps (Json.str "all clear, zero errors")
    ∧ stream_response_aux envC5x clientC5x 2 [] =
        (.ok (simulate_tool_call_response_as_message "call_1"
          (dumps (Json.str "all clear, zero errors"))), [[]]) :=
  ⟨rfl, rfl, rfl⟩

/-- C5 amended: whenever a tool call succeeds and its serialized result
does not contain the substring `error`, the run appends exactly two records
to the history it received, first the assistant tool-call message and then
the tool-result message, leaving every earlier message untouched, and
resubmits the whole extended history; and every history submitted anywhere
in the run extends the original. -/
theorem claim_C5_successful_tool_appends (env : PyEnv) (client : Client) (fuel : Nat)
    (messages : List Message) (cs : List Chunk) (c : Chunk) (st s1 : LoopState)
    (args : Json) (resp : String)
    (hstream : client messages = cs ++ [c])
    (hpre : loopRun env initLoopState cs = .ok st)
    (hs1 : applyDelta { st with finish_reason := some c.finish_reason } c.delta = s1)
    (hfin : c.finish_reason = some "tool_calls")
    (hcoll : s1.is_collecting_function_args = true)
    (hparse : env.jsonLoads s1.function_arguments = some args)
    (hresp : _handle_any_tool_call_for_stream_response env s1.function_name args = resp)
    (hnoerr : pyContains resp "error" = false) :
    stream_response_aux env client (fuel + 1) messages =
      ((stream_response_aux env client fuel (messages ++
          [simulate_tool_call_as_message s1.function_call_id s1.function_name
            s1.function_arguments,
           simulate_tool_call_response_as_message s1.function_call_id resp])).1,
        messages :: (stream_response_aux env client fuel (messages ++
          [simulate_tool_call_as_message s1.function_call_id s1.function_name
            s1.function_arguments,
           simulate_tool_call_response_as_message s1.function_call_id resp])).2)
    ∧ (stream_response_aux env client (fuel + 1) messages).2.all
        (fun H => isPrefixOfMessages messages H) = true := by
  have hrun : loopRun env initLoopState (cs ++ [c]) =
      .ok { s1 with function_response := some resp,
                    is_collecting_function_args := false } := by
    rw [loopRun_append, hpre]
    dsimp only
    simp only [loopRun]
    rw [processChunk_toolcall env st s1 c args hs1 hfin hcoll hparse, hresp]
  have hs1fin : s1.finish_reason = some (some "tool_calls") := by
    rw [← hs1, applyDelta_finish_reason]
    show some c.finish_reason = _
    rw [hfin]
  constructor
  · simp only [stream_response_aux, hstream, hrun, hs1fin, hnoerr, if_true, ite_true,
      Bool.false_eq_true, if_false, ite_false]
  · rw [List.all_eq_true]
    intro H hH
    exact isPrefixOfMessages_sound _ _
      (stream_response_trace_extends env client (fuel + 1) messages H hH)

/-- C5 witness for the amended statement: a clean `get_todays_date` call is
appended as two records and the extended history is resubmitted. -/
theorem claim_C5_witness :
    stream_response_aux envC5 clientC5 2 [] =
      ((stream_response_aux envC5 clientC5 1
          ([] ++ [simulate_tool_call_as_message s1C5.function_call_id s1C5.function_name
              s1C5.function_arguments,
            simulate_tool_call_response_as_message s1C5.function_call_id
              (dumps (Json.str "2025-01-02"))])).1,
        [] :: (stream_response_aux envC5 clientC5 1
          ([] ++ [simulate_tool_call_as_message s1C5.function_call_id s1C5.function_name
              s1C5.function_arguments,
            simulate_tool_call_response_as_message s1C5.function_call_id
              (dumps (Json.str "2025-01-02"))])).2)
    ∧ (stream_response_aux envC5 clientC5 2 []).2.all
        (fun H => isPrefixOfMessages [] H) = true :=
  claim_C5_successful_tool_appends envC5 clientC5 1 [] [] chunkC5 initLoopState s1C5
    (Json.obj []) (dumps (Json.str "2025-01-02")) rfl rfl rfl rfl rfl rfl rfl rfl

/-- C8: when the accumulated tool-call arguments are not a valid JSON
document, the run raises the decode error uncaught, `json.loads` being
evaluated outside any `try`, instead of returning an error-shaped message:
the broad catch only covers the tool invocation itself. -/
theorem claim_C8_invalid_json_raises (env : PyEnv) (client : Client) (fuel : Nat)
    (messages : List Message) (cs : List Chunk) (c : Chunk) (rest : List Chunk)
    (st s1 : LoopState)
    (hstream : client messages = cs ++ c :: rest)
    (hpre : loopRun env initLoopState cs = .ok st)
    (hs1 : applyDelta { st with finish_reason := some c.finish_reason } c.delta = s1)
    (hfin : c.finish_reason = some "tool_calls")
    (hcoll : s1.is_collecting_function_args = true)
    (hparse : env.jsonLoads s1.function_arguments = none) :
    stream_response_aux env client (fuel + 1) messages =
      (.error .jsonDecodeError, [messages]) := by
  have hrun : loopRun env initLoopState (cs ++ c :: rest) = .error .jsonDecodeError := by
    rw [loopRun_append, hpre]
    dsimp only
    simp only [loopRun]
    rw [processChunk_parse_error env st s1 c hs1 hfin hcoll hparse]
  simp only [stream_response_aux, hstream, hrun]

/-- C8 witness: a tool-call stream whose arguments fragment is not JSON
makes the run abort with the decode error. -/
theorem claim_C8_witness :
    stream_response_aux envC8 clientC8 1 [] = (.error .jsonDecodeError, [[]]) :=
  claim_C8_invalid_json_raises envC8 clientC8 0 [] []
    ⟨⟨[⟨some "call_8", ⟨some "get_todays_date", some "not json"⟩⟩], none⟩, some "tool_calls"⟩
    [] initLoopState s1C8 rfl rfl rfl rfl rfl rfl

/-- C10: whenever the loop ends with finish reason `tool_calls` and a stored
serialized tool output whose text contains the substring `error` anywhere,
the run halts the conversation and returns the raw tool-role message after
the single completion request, whether or not the tool actually produced an
error object. -/
theorem claim_C10_error_substring_halts (env : PyEnv) (client : Client) (fuel : Nat)
    (messages : List Message) (st : LoopState) (resp : String)
    (hrun : loopRun env initLoopState (client messages) = .ok st)
    (hfin : st.finish_reason = some (some "tool_calls"))
    (hresp : st.function_response = some resp)
    (herr : pyContains resp "error" = true) :
    stream_response_aux env client (fuel + 1) messages =
      (.ok (simulate_tool_call_response_as_message st.function_call_id resp),
       [messages]) := by
  simp only [stream_response_aux, hrun, hfin, hresp, herr, if_true, ite_true]

/-- C10 witness: the `count_errors` tool succeeds and its output merely
mentions errors, yet the run stops with the raw tool message. -/
theorem claim_C10_witness :
    loopRun envC10 initLoopState (clientC10 []) = .ok stC10
    ∧ stC10.finish_reason = some (some "tool_calls")
    ∧ stC10.function_response = some (dumps (Json.str "found 0 errors"))
    ∧ pyContains (dumps (Json.str "found 0 errors")) "error" = true
    ∧ stream_response_aux envC10 clientC10 1 [] =
        (.ok (simulate_tool_call_response_as_message stC10.function_call_id
          (dumps (Json.str "found 0 errors"))), [[]]) :=
  ⟨rfl, rfl, rfl, rfl,
   claim_C10_error_substring_halts envC10 clientC10 0 [] stC10
     (dumps (Json.str "found 0 errors")) rfl rfl rfl rfl⟩

end TutorialFunctions
